import Mathlib

/-!
Verification of the leak-visualizer dashboard (React frontend in
my-leak-dashboard/src/App.js and its extended variant, plus the FastAPI
backend documented in backend/README.md).

The embedding models:
  - classification records as returned by the backend history endpoint and
    consumed by the frontend (Record);
  - the per-sensor live state kept in the sensorStates React state
    (SensorState, SensorStates) and the update logic of
    fetchPredictionHistory;
  - the severity determination documented for the backend;
  - the history filter and sort pipeline (filteredAndSortedHistory);
  - the SensorDot schematic rendering;
  - the manual upload handlers;
  - the per-sensor streaming scheduler built on setInterval.

Numbers: JS number timestamps are modelled as Int (they are only compared
and subtracted), confidences as Rat. JS strings are Lean String. Optional
or possibly-absent JS object fields are Option; the JS "a || b" fallback
on such a field is modelled with the JS falsiness rule (absent, empty
string and zero select the fallback).
-/

/-- A classification record as stored in the backend prediction history and
consumed by the frontend. Fields that backend history items do not carry
(descriptor-like fields read with a fallback in App) are Option. -/
structure Record where
  sensor_id : String
  timestamp : Int
  prediction : String
  confidence : Rat
  severity : String
  location_description : Option String := none
  floor_reference : Option String := none
  x_coordinate : Option Int := none
  y_coordinate : Option Int := none
  spectrogram_path : Option String := none
deriving Repr, DecidableEq

/-- One entry of the sensorStates React state: descriptor fields merged with
the most recently applied classification fields. -/
structure SensorState where
  id : String
  sensor_id : String
  name : String
  location_description : String
  floor_reference : String
  x_coordinate : Int
  y_coordinate : Int
  prediction : String
  confidence : Rat
  timestamp : Option Int
  severity : String
  spectrogram_path : Option String := none
deriving Repr, DecidableEq

/-- The sensorStates map, keyed by sensor id (a JS object used as a map). -/
def SensorStates : Type := String → Option SensorState

/-- The empty sensorStates map. -/
def stEmpty : SensorStates := fun _ => none

/-- JS fallback "v || dflt" on a possibly-absent string field: absent and
the empty string are falsy and select the fallback. -/
def jsOrStr (v : Option String) (dflt : String) : String :=
  match v with
  | none => dflt
  | some s => if s = "" then dflt else s

/-- JS fallback "v || dflt" on a possibly-absent numeric field: absent and
zero are falsy and select the fallback. -/
def jsOrInt (v : Option Int) (dflt : Int) : Int :=
  match v with
  | none => dflt
  | some n => if n = 0 then dflt else n

/-- Modelled from the spec: the backend severity determination (main.py and
model_inference.py are not part of the source tree; backend/README.md only
documents that a severity of "low", "high" or "none" is assigned to "Leak"
predictions based on confidence thresholds, and the spec fixes the rule:
confidence below t_low gives "none", between t_low and t_high gives "low",
at least t_high gives "high", and any non-Leak label always gives "none"). -/
def determine_severity (t_low t_high : Rat) (label : String) (confidence : Rat) : String :=
  if label = "Leak" then
    if confidence < t_low then "none"
    else if confidence < t_high then "low"
    else "high"
  else "none"

/-- One step of the sensorStates update in fetchPredictionHistory (App, the
data.forEach body): if an entry for the sensor id of the item exists it is
overwritten with the classification fields of the item; otherwise a fresh
entry is synthesized, with descriptor fields taken from the item when
present (JS truthy) and "unplaced/manual" defaults otherwise. In both
branches the stored classification fields become those of the item, with
no comparison against the previously stored timestamp. -/
def applyItem (st : SensorStates) (item : Record) : SensorStates :=
  fun k =>
    if k = item.sensor_id then
      match st item.sensor_id with
      | some prev =>
          some { prev with
                 prediction := item.prediction
                 confidence := item.confidence
                 timestamp := some item.timestamp
                 severity := item.severity
                 spectrogram_path := item.spectrogram_path }
      | none =>
          some { id := item.sensor_id
                 sensor_id := item.sensor_id
                 name := item.sensor_id
                 location_description := jsOrStr item.location_description "Manual Upload"
                 floor_reference := jsOrStr item.floor_reference "Manual"
                 x_coordinate := jsOrInt item.x_coordinate (-1)
                 y_coordinate := jsOrInt item.y_coordinate (-1)
                 prediction := item.prediction
                 confidence := item.confidence
                 timestamp := some item.timestamp
                 severity := item.severity
                 spectrogram_path := item.spectrogram_path }
    else st k

/-- The full data.forEach loop of fetchPredictionHistory: the history items
are applied to the sensorStates map in array order. -/
def applyHistory (st : SensorStates) (data : List Record) : SensorStates :=
  data.foldl applyItem st

/-- A record with the newer timestamp, used in concrete scenarios. -/
def recNew : Record :=
  { sensor_id := "s1", timestamp := 2, prediction := "Leak", confidence := 1, severity := "high" }

/-- A record with the older timestamp, used in concrete scenarios. -/
def recOld : Record :=
  { sensor_id := "s1", timestamp := 1, prediction := "Normal", confidence := 0, severity := "none" }

/-- C1: for every confidence c in the unit interval and thresholds with
t_low at most t_high, a positive (Leak) classification gets severity
"none" iff c < t_low, "low" iff t_low <= c < t_high, "high" iff
c >= t_high, and a negative (Normal) classification always gets "none". -/
theorem C1_severity_thresholds (t_low t_high c : Rat)
    (hle : t_low ≤ t_high) (h0 : 0 ≤ c) (h1 : c ≤ 1) :
    (determine_severity t_low t_high "Leak" c = "none" ↔ c < t_low) ∧
    (determine_severity t_low t_high "Leak" c = "low" ↔ t_low ≤ c ∧ c < t_high) ∧
    (determine_severity t_low t_high "Leak" c = "high" ↔ t_high ≤ c) ∧
    determine_severity t_low t_high "Normal" c = "none" := by
  unfold determine_severity
  have hln : ("Leak" : String) = "Leak" := rfl
  have hnl : ¬ ("Normal" : String) = "Leak" := by decide
  rw [if_pos hln, if_neg hnl]
  by_cases hlo : c < t_low
  · rw [if_pos hlo]
    refine ⟨by simp [hlo], ?_, ?_, rfl⟩
    · constructor
      · intro h; exact absurd h (by decide)
      · rintro ⟨h, _⟩; linarith
    · constructor
      · intro h; exact absurd h (by decide)
      · intro h; linarith
  · rw [if_neg hlo]
    push_neg at hlo
    by_cases hhi : c < t_high
    · rw [if_pos hhi]
      refine ⟨?_, by simp [hlo, hhi], ?_, rfl⟩
      · constructor
        · intro h; exact absurd h (by decide)
        · intro h; linarith
      · constructor
        · intro h; exact absurd h (by decide)
        · intro h; linarith
    · rw [if_neg hhi]
      push_neg at hhi
      refine ⟨?_, ?_, by simp [hhi], rfl⟩
      · constructor
        · intro h; exact absurd h (by decide)
        · intro h; linarith
      · constructor
        · intro h; exact absurd h (by decide)
        · rintro ⟨_, h⟩; linarith

/-- Witness for C1 at thresholds 0 and 1 with confidence 1. -/
theorem C1_severity_thresholds_witness :
    (determine_severity 0 1 "Leak" 1 = "none" ↔ (1 : Rat) < 0) ∧
    (determine_severity 0 1 "Leak" 1 = "low" ↔ (0 : Rat) ≤ 1 ∧ (1 : Rat) < 1) ∧
    (determine_severity 0 1 "Leak" 1 = "high" ↔ (1 : Rat) ≤ 1) ∧
    determine_severity 0 1 "Normal" 1 = "none" :=
  C1_severity_thresholds 0 1 1 (by decide) (by decide) (by decide)

/-- C2 counterexample: after observing recNew (timestamp 2) for sensor s1,
observing recOld (timestamp 1, older) still replaces the stored entry: the
live state is rolled back to the older record, so the claimed monotonic
merge (replace only when the arriving timestamp is at least the stored
one) does not hold for the code. -/
theorem C2_monotonic_merge_counterexample :
    ((applyHistory stEmpty [recNew]) "s1").map (fun e => e.timestamp) = some (some 2) ∧
    ((applyHistory stEmpty [recNew, recOld]) "s1").map (fun e => e.timestamp) = some (some 1) ∧
    recOld.timestamp < recNew.timestamp := by
  refine ⟨rfl, rfl, by decide⟩

/-- C2 amended: the update in fetchPredictionHistory is unconditional
last-write-wins in arrival order. After any arriving record is applied, the
stored live state for its sensor id carries exactly that record has just
reported (prediction, confidence, timestamp, severity), with no comparison
against the previously stored timestamp, and entries of other sensors are
untouched. -/
theorem C2_last_write_wins (st : SensorStates) (item : Record) :
    ((applyItem st item) item.sensor_id).map
        (fun e => (e.prediction, e.confidence, e.timestamp, e.severity))
      = some (item.prediction, item.confidence, some item.timestamp, item.severity) := by
  unfold applyItem
  rw [if_pos rfl]
  cases st item.sensor_id <;> rfl

/-- Helper: applying one item never removes an existing entry. -/
theorem applyItem_preserves (st : SensorStates) (item : Record) (k : String)
    (h : st k ≠ none) : (applyItem st item) k ≠ none := by
  unfold applyItem
  by_cases hk : k = item.sensor_id
  · rw [if_pos hk]
    cases st item.sensor_id <;> simp
  · rw [if_neg hk]; exact h

/-- Helper: after applying one item, an entry for its sensor id exists. -/
theorem applyItem_creates (st : SensorStates) (item : Record) :
    (applyItem st item) item.sensor_id ≠ none := by
  unfold applyItem
  rw [if_pos rfl]
  cases st item.sensor_id <;> simp

/-- Helper: after the whole forEach, an entry exists for every sensor id
that occurs in the processed data. -/
theorem applyHistory_covers (data : List Record) : ∀ (st : SensorStates) (r : Record),
    r ∈ data → (applyHistory st data) r.sensor_id ≠ none := by
  induction data with
  | nil => intro st r h; cases h
  | cons item rest ih =>
      intro st r h
      rcases List.mem_cons.mp h with h1 | h2
      · subst h1
        have base : (applyItem st r) r.sensor_id ≠ none := applyItem_creates st r
        unfold applyHistory
        rw [List.foldl_cons]
        have : ∀ (d : List Record) (s : SensorStates) (k : String),
            s k ≠ none → (d.foldl applyItem s) k ≠ none := by
          intro d
          induction d with
          | nil => intro s k hk; simpa using hk
          | cons x xs ihd =>
              intro s k hk
              rw [List.foldl_cons]
              exact ihd (applyItem s x) k (applyItem_preserves s x k hk)
        exact this rest (applyItem st r) r.sensor_id base
      · unfold applyHistory
        rw [List.foldl_cons]
        exact ih (applyItem st item) r h2

/-- C7: a record arriving for a sensor id with no stored entry, carrying no
descriptor fields (as backend history items do not), first materializes a
synthetic descriptor with manual defaults (floor "Manual", sentinel
placement coordinates -1, location "Manual Upload") merged with the
classification fields of the record; and after processing any data array,
an entry exists for every sensor id occurring in it. -/
theorem C7_synthetic_descriptor (st st2 : SensorStates) (item : Record)
    (data : List Record) (r : Record)
    (habs : st item.sensor_id = none)
    (hloc : item.location_description = none)
    (hfl : item.floor_reference = none)
    (hx : item.x_coordinate = none)
    (hy : item.y_coordinate = none)
    (hmem : r ∈ data) :
    (applyItem st item) item.sensor_id =
      some { id := item.sensor_id
             sensor_id := item.sensor_id
             name := item.sensor_id
             location_description := "Manual Upload"
             floor_reference := "Manual"
             x_coordinate := -1
             y_coordinate := -1
             prediction := item.prediction
             confidence := item.confidence
             timestamp := some item.timestamp
             severity := item.severity
             spectrogram_path := item.spectrogram_path } ∧
    (applyHistory st2 data) r.sensor_id ≠ none := by
  constructor
  · unfold applyItem
    rw [if_pos rfl, habs]
    rw [hloc, hfl, hx, hy]
    rfl
  · exact applyHistory_covers data st2 r hmem

/-- A record with no descriptor fields for an unregistered sensor id. -/
def recManual : Record :=
  { sensor_id := "manual_sensor_X", timestamp := 5, prediction := "Leak",
    confidence := 1, severity := "high" }

/-- Witness for C7: recManual reported for an unregistered id on the empty
map synthesizes the default descriptor, and an entry exists afterwards. -/
theorem C7_synthetic_descriptor_witness :
    (applyItem stEmpty recManual) recManual.sensor_id =
      some { id := recManual.sensor_id
             sensor_id := recManual.sensor_id
             name := recManual.sensor_id
             location_description := "Manual Upload"
             floor_reference := "Manual"
             x_coordinate := -1
             y_coordinate := -1
             prediction := recManual.prediction
             confidence := recManual.confidence
             timestamp := some recManual.timestamp
             severity := recManual.severity
             spectrogram_path := recManual.spectrogram_path } ∧
    (applyHistory stEmpty [recManual]) recManual.sensor_id ≠ none :=
  C7_synthetic_descriptor stEmpty stEmpty recManual [recManual] recManual
    rfl rfl rfl rfl rfl (List.mem_singleton.mpr rfl)

/-- JS test prediction === "Leak" used by the sort comparator and views. -/
def isLeak (r : Record) : Bool := decide (r.prediction = "Leak")

/-- The filter predicate of filteredAndSortedHistory: a record passes when
the selected floor is "All" or matches its floor_reference, and then the
severity filter is "All" or matches its severity. Backend history items
carry no floor_reference (none), so any specific floor excludes them. -/
def historyFilter (selectedFloor filterSeverity : String) (item : Record) : Bool :=
  if selectedFloor ≠ "All" ∧ item.floor_reference ≠ some selectedFloor then false
  else if filterSeverity = "All" then true
  else decide (item.severity = filterSeverity)

/-- The sort comparator of filteredAndSortedHistory, returning the JS
comparator value: timestamp difference for the two time orders; for the
two confidence orders, Leak records sort before non-Leak records and
within a group the confidence difference in the requested direction;
unknown sort orders compare everything equal. -/
def historyCmp (sortOrder : String) (a b : Record) : Rat :=
  if sortOrder = "Newest First" then ((b.timestamp - a.timestamp : Int) : Rat)
  else if sortOrder = "Oldest First" then ((a.timestamp - b.timestamp : Int) : Rat)
  else if sortOrder = "Confidence High-Low" then
    if isLeak a = true ∧ isLeak b = false then -1
    else if isLeak a = false ∧ isLeak b = true then 1
    else b.confidence - a.confidence
  else if sortOrder = "Confidence Low-High" then
    if isLeak a = true ∧ isLeak b = false then -1
    else if isLeak a = false ∧ isLeak b = true then 1
    else a.confidence - b.confidence
  else 0

/-- The non-strict order induced by the comparator: a sorts no later than b
when the comparator is nonpositive. A JS stable sort with a consistent
comparator orders by exactly this relation. -/
def historyLe (sortOrder : String) (a b : Record) : Bool :=
  decide (historyCmp sortOrder a b ≤ 0)

/-- The filter stage of filteredAndSortedHistory. -/
def filteredHistory (selectedFloor filterSeverity : String) (l : List Record) : List Record :=
  l.filter (historyFilter selectedFloor filterSeverity)

/-- The sort stage of filteredAndSortedHistory, modelled as a stable sort
by the comparator order (JS Array sort is stable per the language spec). -/
def sortHistory (sortOrder : String) (l : List Record) : List Record :=
  l.mergeSort (historyLe sortOrder)

/-- The full filteredAndSortedHistory pipeline: copy, filter, then sort. -/
def filteredAndSortedHistory (selectedFloor filterSeverity sortOrder : String)
    (l : List Record) : List Record :=
  sortHistory sortOrder (filteredHistory selectedFloor filterSeverity l)

/-- Concrete record with severity high (first). -/
def rH1 : Record :=
  { sensor_id := "sA", timestamp := 10, prediction := "Leak", confidence := 1, severity := "high" }

/-- Concrete record with severity none. -/
def rN1 : Record :=
  { sensor_id := "sB", timestamp := 11, prediction := "Normal", confidence := 1, severity := "none" }

/-- Concrete record with severity low. -/
def rL1 : Record :=
  { sensor_id := "sC", timestamp := 12, prediction := "Leak", confidence := 0, severity := "low" }

/-- Concrete record with severity high (second). -/
def rH2 : Record :=
  { sensor_id := "sD", timestamp := 13, prediction := "Leak", confidence := 0, severity := "high" }

/-- C4: with no floor restriction, filtering by a concrete severity keeps
exactly the records whose severity equals the requested one, in their
original relative order (the result is a sublist of the input); and on the
concrete severities [high, none, low, high], filtering by high returns
exactly the two high records in original order. -/
theorem C4_severity_filter (sev : String) (l : List Record) (hsev : sev ≠ "All") :
    (filteredHistory "All" sev l).Sublist l ∧
    (∀ r : Record, r ∈ filteredHistory "All" sev l ↔ r ∈ l ∧ r.severity = sev) ∧
    filteredHistory "All" "high" [rH1, rN1, rL1, rH2] = [rH1, rH2] := by
  have hchar : ∀ r : Record, historyFilter "All" sev r = decide (r.severity = sev) := by
    intro r
    unfold historyFilter
    rw [if_neg (by simp), if_neg hsev]
  refine ⟨List.filter_sublist l, ?_, by decide⟩
  intro r
  unfold filteredHistory
  rw [List.mem_filter, hchar r]
  simp

/-- Witness for C4 at severity high on the concrete four records. -/
theorem C4_severity_filter_witness :
    (filteredHistory "All" "high" [rH1, rN1, rL1, rH2]).Sublist [rH1, rN1, rL1, rH2] ∧
    (∀ r : Record, r ∈ filteredHistory "All" "high" [rH1, rN1, rL1, rH2] ↔
        r ∈ [rH1, rN1, rL1, rH2] ∧ r.severity = "high") ∧
    filteredHistory "All" "high" [rH1, rN1, rL1, rH2] = [rH1, rH2] :=
  C4_severity_filter "high" [rH1, rN1, rL1, rH2] (by decide)

/-- C10: when a specific floor (not "All") is selected, every record whose
floor_reference differs from it is absent from the listed history, for
every severity filter and every sort order: the floor restriction composes
with (and is tested before) the severity filter. -/
theorem C10_floor_restriction (selectedFloor filterSeverity sortOrder : String)
    (l : List Record) (r : Record)
    (hfloor : selectedFloor ≠ "All")
    (hr : r.floor_reference ≠ some selectedFloor) :
    r ∉ filteredAndSortedHistory selectedFloor filterSeverity sortOrder l := by
  intro hmem
  have hperm :=
    List.mergeSort_perm (filteredHistory selectedFloor filterSeverity l) (historyLe sortOrder)
  have hmf : r ∈ filteredHistory selectedFloor filterSeverity l := hperm.mem_iff.mp hmem
  have hf := (List.mem_filter.mp hmf).2
  unfold historyFilter at hf
  rw [if_pos ⟨hfloor, hr⟩] at hf
  cases hf

/-- Concrete record carrying a floor_reference, for the C10 witness. -/
def rMan : Record :=
  { sensor_id := "sE", timestamp := 14, prediction := "Leak", confidence := 1,
    severity := "high", floor_reference := some "Manual" }

/-- Witness for C10: a record on floor "Manual" is absent from the listing
for floor "Floor 1" even though its severity matches the filter. -/
theorem C10_floor_restriction_witness :
    rMan ∉ filteredAndSortedHistory "Floor 1" "high" "Newest First" [rMan] :=
  C10_floor_restriction "Floor 1" "high" "Newest First" [rMan] rMan
    (by decide) (by decide)

/-- Reduction of the comparator at the High-Low confidence order. -/
theorem historyCmp_HL (a b : Record) :
    historyCmp "Confidence High-Low" a b =
      if isLeak a = true ∧ isLeak b = false then -1
      else if isLeak a = false ∧ isLeak b = true then 1
      else b.confidence - a.confidence := rfl

/-- Reduction of the comparator at the Low-High confidence order. -/
theorem historyCmp_LH (a b : Record) :
    historyCmp "Confidence Low-High" a b =
      if isLeak a = true ∧ isLeak b = false then -1
      else if isLeak a = false ∧ isLeak b = true then 1
      else a.confidence - b.confidence := rfl

/-- Characterization of the comparator order at High-Low: a sorts no later
than b iff a is a Leak and b is not, or both are in the same group and the
confidence of b is at most that of a. -/
theorem historyLe_HL_iff (a b : Record) :
    historyLe "Confidence High-Low" a b = true ↔
      (isLeak a = true ∧ isLeak b = false) ∨
      (isLeak a = isLeak b ∧ b.confidence ≤ a.confidence) := by
  unfold historyLe
  rw [historyCmp_HL]
  cases ha : isLeak a <;> cases hb : isLeak b <;>
    simp [sub_nonpos]

/-- Characterization of the comparator order at Low-High: a sorts no later
than b iff a is a Leak and b is not, or both are in the same group and the
confidence of a is at most that of b. -/
theorem historyLe_LH_iff (a b : Record) :
    historyLe "Confidence Low-High" a b = true ↔
      (isLeak a = true ∧ isLeak b = false) ∨
      (isLeak a = isLeak b ∧ a.confidence ≤ b.confidence) := by
  unfold historyLe
  rw [historyCmp_LH]
  cases ha : isLeak a <;> cases hb : isLeak b <;>
    simp [sub_nonpos]

/-- The comparator order at the two confidence sort orders is transitive. -/
theorem historyLe_conf_trans (o : String)
    (ho : o = "Confidence High-Low" ∨ o = "Confidence Low-High") :
    ∀ a b c : Record, historyLe o a b = true → historyLe o b c = true →
      historyLe o a c = true := by
  rcases ho with h | h <;> subst h <;> intro a b c hab hbc
  · rw [historyLe_HL_iff] at hab hbc ⊢
    rcases hab with ⟨ha, hb⟩ | ⟨hab, hcab⟩ <;>
      rcases hbc with ⟨hb2, hc⟩ | ⟨hbc2, hcbc⟩ <;> simp_all <;> linarith
  · rw [historyLe_LH_iff] at hab hbc ⊢
    rcases hab with ⟨ha, hb⟩ | ⟨hab, hcab⟩ <;>
      rcases hbc with ⟨hb2, hc⟩ | ⟨hbc2, hcbc⟩ <;> simp_all <;> linarith

/-- The comparator order at the two confidence sort orders is total. -/
theorem historyLe_conf_total (o : String)
    (ho : o = "Confidence High-Low" ∨ o = "Confidence Low-High") :
    ∀ a b : Record, (historyLe o a b || historyLe o b a) = true := by
  rcases ho with h | h <;> subst h <;> intro a b <;>
    rw [Bool.or_eq_true]
  · rw [historyLe_HL_iff, historyLe_HL_iff]
    cases ha : isLeak a <;> cases hb : isLeak b <;> simp
    · exact le_total b.confidence a.confidence
    · exact le_total b.confidence a.confidence
  · rw [historyLe_LH_iff, historyLe_LH_iff]
    cases ha : isLeak a <;> cases hb : isLeak b <;> simp
    · exact le_total a.confidence b.confidence
    · exact le_total a.confidence b.confidence

/-- C3: sorting history by confidence in either requested direction gives a
permutation of the input in which every Leak record precedes every
non-Leak record, within each of the two groups the records are ordered by
confidence in the requested direction, and the sort is stable: two records
comparing equal that appear in some order in the input appear in the same
order in the output. -/
theorem C3_confidence_sort (o : String) (l : List Record)
    (ho : o = "Confidence High-Low" ∨ o = "Confidence Low-High") :
    (sortHistory o l).Perm l ∧
    (sortHistory o l).Pairwise (fun a b => isLeak b = true → isLeak a = true) ∧
    (sortHistory o l).Pairwise (fun a b => isLeak a = isLeak b →
        (if o = "Confidence High-Low" then b.confidence ≤ a.confidence
         else a.confidence ≤ b.confidence)) ∧
    (∀ a b : Record, [a, b].Sublist l → historyLe o a b = true → historyLe o b a = true →
        [a, b].Sublist (sortHistory o l)) := by
  have htr := historyLe_conf_trans o ho
  have hto := historyLe_conf_total o ho
  have hs := List.sorted_mergeSort htr hto l
  refine ⟨List.mergeSort_perm l _, ?_, ?_, ?_⟩
  · refine hs.imp ?_
    intro a b hle hbt
    rcases ho with h | h <;> subst h
    · rw [historyLe_HL_iff] at hle
      rcases hle with ⟨ha, hb⟩ | ⟨heq, _⟩
      · rw [hbt] at hb; cases hb
      · rw [heq, hbt]
    · rw [historyLe_LH_iff] at hle
      rcases hle with ⟨ha, hb⟩ | ⟨heq, _⟩
      · rw [hbt] at hb; cases hb
      · rw [heq, hbt]
  · refine hs.imp ?_
    intro a b hle heq
    rcases ho with h | h <;> subst h
    · rw [historyLe_HL_iff] at hle
      rw [if_pos rfl]
      rcases hle with ⟨ha, hb⟩ | ⟨_, hc⟩
      · rw [ha, hb] at heq; cases heq
      · exact hc
    · rw [historyLe_LH_iff] at hle
      rw [if_neg (by decide)]
      rcases hle with ⟨ha, hb⟩ | ⟨_, hc⟩
      · rw [ha, hb] at heq; cases heq
      · exact hc
  · intro a b hsub hab hba
    have hp : List.Pairwise (fun x y => historyLe o x y = true) [a, b] := by
      refine List.Pairwise.cons ?_ (List.pairwise_singleton _ _)
      intro y hy
      rw [List.mem_singleton] at hy
      subst hy
      exact hab
    exact List.sublist_mergeSort htr hto hp hsub

/-- Witness for C3 at the High-Low order on two concrete records. -/
theorem C3_confidence_sort_witness :
    (sortHistory "Confidence High-Low" [recOld, recNew]).Perm [recOld, recNew] ∧
    (sortHistory "Confidence High-Low" [recOld, recNew]).Pairwise
        (fun a b => isLeak b = true → isLeak a = true) ∧
    (sortHistory "Confidence High-Low" [recOld, recNew]).Pairwise
        (fun a b => isLeak a = isLeak b →
          (if ("Confidence High-Low" : String) = "Confidence High-Low"
           then b.confidence ≤ a.confidence
           else a.confidence ≤ b.confidence)) ∧
    (∀ a b : Record, [a, b].Sublist [recOld, recNew] →
        historyLe "Confidence High-Low" a b = true →
        historyLe "Confidence High-Low" b a = true →
        [a, b].Sublist (sortHistory "Confidence High-Low" [recOld, recNew])) :=
  C3_confidence_sort "Confidence High-Low" [recOld, recNew] (Or.inl rfl)

/-- The visual content of a rendered sensor dot on the schematic. -/
structure RenderedDot where
  left : Int
  top : Int
  color : String
  blinking : Bool
deriving Repr, DecidableEq

/-- The SensorDot component: renders nothing (none) when either placement
coordinate is the sentinel -1, otherwise a dot at the coordinates, gray
for an Error prediction, red and blinking for Leak, green otherwise. -/
def SensorDot (s : SensorState) : Option RenderedDot :=
  if s.x_coordinate = -1 ∨ s.y_coordinate = -1 then none
  else
    some { left := s.x_coordinate
           top := s.y_coordinate
           color := if s.prediction = "Error" then "gray"
                    else if s.prediction = "Leak" then "red" else "green"
           blinking := decide (s.prediction = "Leak") }

/-- The dots of one floor section of the schematic: the sensor states are
filtered to the floor and each is rendered through SensorDot; entries that
render null contribute nothing. -/
def floorDots (floor : String) (states : List SensorState) : List RenderedDot :=
  (states.filter (fun s => decide (s.floor_reference = floor))).filterMap SensorDot

/-- C8: a sensor state with a sentinel placement coordinate (-1 on either
axis) renders no dot, and every dot appearing on a floor schematic comes
from a sensor state of that floor whose coordinates are both valid. -/
theorem C8_sentinel_coordinates (s : SensorState) (floor : String)
    (states : List SensorState) :
    ((s.x_coordinate = -1 ∨ s.y_coordinate = -1) → SensorDot s = none) ∧
    (∀ d ∈ floorDots floor states, ∃ t ∈ states,
        t.floor_reference = floor ∧ t.x_coordinate ≠ -1 ∧ t.y_coordinate ≠ -1 ∧
        SensorDot t = some d) := by
  constructor
  · intro h
    unfold SensorDot
    rw [if_pos h]
  · intro d hd
    unfold floorDots at hd
    rcases List.mem_filterMap.mp hd with ⟨t, htmem, htd⟩
    rcases List.mem_filter.mp htmem with ⟨htl, htf⟩
    refine ⟨t, htl, of_decide_eq_true htf, ?_, ?_, htd⟩
    · intro hx
      unfold SensorDot at htd
      rw [if_pos (Or.inl hx)] at htd
      cases htd
    · intro hy
      unfold SensorDot at htd
      rw [if_pos (Or.inr hy)] at htd
      cases htd

/-- A sensor state with sentinel coordinates (an unplaced manual sensor). -/
def sUnplaced : SensorState :=
  { id := "manual_sensor_X", sensor_id := "manual_sensor_X", name := "manual_sensor_X",
    location_description := "Manual Upload", floor_reference := "Manual",
    x_coordinate := -1, y_coordinate := -1, prediction := "Leak", confidence := 1,
    timestamp := some 5, severity := "high" }

/-- Witness for C8 on the unplaced manual sensor state. -/
theorem C8_sentinel_coordinates_witness :
    SensorDot sUnplaced = none ∧
    (∀ d ∈ floorDots "Manual" [sUnplaced], ∃ t ∈ [sUnplaced],
        t.floor_reference = "Manual" ∧ t.x_coordinate ≠ -1 ∧ t.y_coordinate ≠ -1 ∧
        SensorDot t = some d) :=
  ⟨(C8_sentinel_coordinates sUnplaced "Manual" [sUnplaced]).1 (Or.inl rfl),
   (C8_sentinel_coordinates sUnplaced "Manual" [sUnplaced]).2⟩

/-- A selected file in the manual upload form: its name and MIME type. -/
structure FileObj where
  name : String
  type : String
deriving Repr, DecidableEq

/-- The React state touched by the manual upload path. -/
structure ManualState where
  manualSelectedFile : Option FileObj
  manualSensorId : String
  manualLatestPrediction : Option Record
  loading : Bool
  error : Option String
deriving Repr, DecidableEq

/-- The handleManualFileChange handler: a chosen file whose type is exactly
image/png becomes the selection and clears the error; any other chosen
file (or an empty choice) clears the selection and sets the error. -/
def handleManualFileChange (st : ManualState) (file : Option FileObj) : ManualState :=
  match file with
  | some f =>
      if f.type = "image/png" then
        { st with manualSelectedFile := some f, error := none }
      else
        { st with manualSelectedFile := none,
                  error := some "Please select a valid PNG image file." }
  | none =>
      { st with manualSelectedFile := none,
                error := some "Please select a valid PNG image file." }

/-- The handleManualSubmit handler. The outcome of the network request, had
one been made, is passed as an oracle; the boolean result records whether
a request was actually issued. With no selected file or an empty sensor id
the submission is rejected before any request: only the error message is
set. Otherwise the request runs; on success the latest manual prediction
is stored and the form is cleared, on failure the error is stored. -/
def handleManualSubmit (st : ManualState) (resp : Except String Record) :
    ManualState × Bool :=
  if st.manualSelectedFile = none ∨ st.manualSensorId = "" then
    ({ st with error := some "Please select an image and enter a sensor ID for manual prediction." },
     false)
  else
    match resp with
    | .ok data =>
        ({ st with loading := false, error := none,
                   manualLatestPrediction := some data,
                   manualSelectedFile := none, manualSensorId := "" },
         true)
    | .error msg =>
        ({ st with loading := false, error := some msg,
                   manualLatestPrediction := none },
         true)

/-- C9: choosing a file whose type is not exactly image/png clears the
selection and sets an error (so no submission is possible with it), and a
manual submission with no selected file or an empty sensor id issues no
request and leaves every state field except the error message unchanged. -/
theorem C9_manual_guards (st st2 : ManualState) (f : FileObj)
    (resp : Except String Record)
    (hf : f.type ≠ "image/png")
    (hrej : st2.manualSelectedFile = none ∨ st2.manualSensorId = "") :
    handleManualFileChange st (some f) =
      { st with manualSelectedFile := none,
                error := some "Please select a valid PNG image file." } ∧
    (handleManualSubmit st2 resp).2 = false ∧
    (handleManualSubmit st2 resp).1 =
      { st2 with error := some "Please select an image and enter a sensor ID for manual prediction." } := by
  refine ⟨?_, ?_, ?_⟩
  · simp only [handleManualFileChange]
    rw [if_neg hf]
  · unfold handleManualSubmit
    rw [if_pos hrej]
  · unfold handleManualSubmit
    rw [if_pos hrej]

/-- An empty manual form state. -/
def msEmpty : ManualState :=
  { manualSelectedFile := none, manualSensorId := "", manualLatestPrediction := none,
    loading := false, error := none }

/-- A chosen file of the wrong MIME type. -/
def fJpeg : FileObj := { name := "photo.jpg", type := "image/jpeg" }

/-- Witness for C9 on the empty form state and a JPEG file. -/
theorem C9_manual_guards_witness :
    handleManualFileChange msEmpty (some fJpeg) =
      { msEmpty with manualSelectedFile := none,
                     error := some "Please select a valid PNG image file." } ∧
    (handleManualSubmit msEmpty (Except.error "network")).2 = false ∧
    (handleManualSubmit msEmpty (Except.error "network")).1 =
      { msEmpty with error := some "Please select an image and enter a sensor ID for manual prediction." } :=
  C9_manual_guards msEmpty msEmpty fJpeg (Except.error "network")
    (by decide) (Or.inl rfl)

/-- The tick instants of one setInterval producer within a run of the given
duration: the immediate initial call at time 0 and one call every interval
time units afterwards, for instants strictly before the end of the run. -/
def tickTimes (interval duration : Nat) : List Nat :=
  (List.range duration).filter (fun t => t % interval = 0)

/-- The records one sensor appends during a run: one per tick instant whose
pipeline call succeeds (the ok oracle), tagged with the sensor id and the
tick instant. A failing call appends nothing. -/
def sensorTickRecords (sid : String) (interval duration : Nat)
    (ok : String → Nat → Bool) : List (String × Nat) :=
  (tickTimes interval duration).filterMap
    (fun t => if ok sid t then some (sid, t) else none)

/-- The records appended during a run of the streaming scheduler: each
registered sensor runs its own independent interval producer. -/
def scheduledRecords (ids : List String) (interval duration : Nat)
    (ok : String → Nat → Bool) : List (String × Nat) :=
  ids.flatMap (fun sid => sensorTickRecords sid interval duration ok)

/-- Helper: one sensor appends at most one record per tick instant. -/
theorem sensorTickRecords_length_le (sid : String) (interval duration : Nat)
    (ok : String → Nat → Bool) :
    (sensorTickRecords sid interval duration ok).length ≤
      (tickTimes interval duration).length :=
  List.length_filterMap_le _ _

/-- Helper: when every call succeeds, one sensor appends exactly one record
per tick instant. -/
theorem sensorTickRecords_length_ok (sid : String) (interval duration : Nat)
    (ok : String → Nat → Bool) (hok : ∀ s t, ok s t = true) :
    (sensorTickRecords sid interval duration ok).length =
      (tickTimes interval duration).length := by
  unfold sensorTickRecords
  have hmap : (tickTimes interval duration).filterMap
      (fun t => if ok sid t then some (sid, t) else none) =
      (tickTimes interval duration).map (fun t => (sid, t)) := by
    rw [List.filterMap_eq_map_iff_forall_eq_some]
    intro x _
    rw [hok sid x]
    simp
  rw [hmap, List.length_map]

/-- Helper: every record a sensor producer appends carries its sensor id. -/
theorem sensorTickRecords_fst (sid : String) (interval duration : Nat)
    (ok : String → Nat → Bool) (p : String × Nat)
    (hp : p ∈ sensorTickRecords sid interval duration ok) : p.1 = sid := by
  unfold sensorTickRecords at hp
  rcases List.mem_filterMap.mp hp with ⟨t, _, ht⟩
  by_cases h : ok sid t = true
  · rw [if_pos h] at ht
    cases ht
    rfl
  · rw [if_neg h] at ht
    cases ht

/-- C5: running the scheduler for three registered sensors over two tick
intervals (duration 10 with the reference cadence of 5 time units: the
immediate call at 0 and the interval call at 5), the appended records
number at least 3 when every pipeline call succeeds, never more than 6,
and each carries one of the three registered sensor ids. -/
theorem C5_scheduler_two_intervals (a b c : String) (ok : String → Nat → Bool) :
    ((∀ s t, ok s t = true) →
        3 ≤ (scheduledRecords [a, b, c] 5 10 ok).length) ∧
    (scheduledRecords [a, b, c] 5 10 ok).length ≤ 6 ∧
    (∀ p ∈ scheduledRecords [a, b, c] 5 10 ok, p.1 = a ∨ p.1 = b ∨ p.1 = c) := by
  have happ : scheduledRecords [a, b, c] 5 10 ok =
      sensorTickRecords a 5 10 ok ++ (sensorTickRecords b 5 10 ok ++
        (sensorTickRecords c 5 10 ok ++ [])) := rfl
  have hticks : (tickTimes 5 10).length = 2 := by decide
  refine ⟨?_, ?_, ?_⟩
  · intro hok
    rw [happ]
    simp only [List.length_append, List.length_nil]
    rw [sensorTickRecords_length_ok a 5 10 ok hok,
        sensorTickRecords_length_ok b 5 10 ok hok,
        sensorTickRecords_length_ok c 5 10 ok hok, hticks]
    omega
  · rw [happ]
    simp only [List.length_append, List.length_nil]
    have ha := sensorTickRecords_length_le a 5 10 ok
    have hb := sensorTickRecords_length_le b 5 10 ok
    have hc := sensorTickRecords_length_le c 5 10 ok
    rw [hticks] at ha hb hc
    omega
  · intro p hp
    rw [happ] at hp
    rcases List.mem_append.mp hp with h | h
    · exact Or.inl (sensorTickRecords_fst a 5 10 ok p h)
    · rcases List.mem_append.mp h with h2 | h2
      · exact Or.inr (Or.inl (sensorTickRecords_fst b 5 10 ok p h2))
      · rcases List.mem_append.mp h2 with h3 | h3
        · exact Or.inr (Or.inr (sensorTickRecords_fst c 5 10 ok p h3))
        · cases h3

/-- Witness for C5 with three concrete sensor ids and all calls succeeding. -/
theorem C5_scheduler_two_intervals_witness :
    ((∀ s t, (fun (_ : String) (_ : Nat) => true) s t = true) →
        3 ≤ (scheduledRecords ["sensor-pipe-A", "sensor-pipe-B", "sensor-pipe-C"] 5 10
              (fun _ _ => true)).length) ∧
    (scheduledRecords ["sensor-pipe-A", "sensor-pipe-B", "sensor-pipe-C"] 5 10
        (fun _ _ => true)).length ≤ 6 ∧
    (∀ p ∈ scheduledRecords ["sensor-pipe-A", "sensor-pipe-B", "sensor-pipe-C"] 5 10
        (fun _ _ => true),
      p.1 = "sensor-pipe-A" ∨ p.1 = "sensor-pipe-B" ∨ p.1 = "sensor-pipe-C") :=
  C5_scheduler_two_intervals "sensor-pipe-A" "sensor-pipe-B" "sensor-pipe-C"
    (fun _ _ => true)

/-- The outcome of one pipeline call (the /predict request of a tick):
either the classification record the backend produced and logged, or a
failure with its error message. -/
inductive TickOutcome where
  | ok (rec : Record)
  | fail (msg : String)
deriving Repr, DecidableEq

/-- Modelled from the spec: the backend History Log append (main.py is not
part of the source tree; backend/README.md documents that every successful
prediction is logged to the in-memory prediction_history in arrival
order). -/
def appendRecord (hist : List Record) (rec : Record) : List Record :=
  hist ++ [rec]

/-- One tick of streamSensorData for one sensor. On success the backend has
appended the record and the frontend refreshes: fetchPredictionHistory
re-applies the full history to sensorStates. On failure nothing is
appended and no refresh happens; only the entry of this sensor is marked
with prediction Error, severity none and the current time (when such an
entry exists, as it does for every registered sensor). -/
def streamTick (st : SensorStates) (hist : List Record) (sid : String)
    (outcome : TickOutcome) (now : Int) : SensorStates × List Record :=
  match outcome with
  | .ok rec =>
      (applyHistory st (appendRecord hist rec), appendRecord hist rec)
  | .fail _ =>
      (fun k => if k = sid then
          (st sid).map (fun prev =>
            { prev with prediction := "Error", severity := "none", timestamp := some now })
        else st k,
       hist)

/-- C6: a failed tick leaves the sensor in an explicit Error state, which is
a prediction value distinct from both Normal and Leak; no record is
appended to the history for the failed submission; and the failure is
local: the next successful tick of the same sensor appends its record to
the unchanged history as usual. -/
theorem C6_failure_isolation (st : SensorStates) (hist : List Record)
    (sid msg : String) (now now2 : Int) (prev : SensorState)
    (hreg : st sid = some prev) :
    ((streamTick st hist sid (.fail msg) now).1 sid).map (fun e => e.prediction)
        = some "Error" ∧
    ("Error" : String) ≠ "Normal" ∧
    ("Error" : String) ≠ "Leak" ∧
    (streamTick st hist sid (.fail msg) now).2 = hist ∧
    (∀ rec : Record,
      (streamTick (streamTick st hist sid (.fail msg) now).1
          (streamTick st hist sid (.fail msg) now).2 sid (.ok rec) now2).2
        = hist ++ [rec]) := by
  refine ⟨?_, by decide, by decide, rfl, ?_⟩
  · simp [streamTick, hreg]
  · intro rec
    rfl

/-- A registered sensor state for the C6 witness. -/
def sRegistered : SensorState :=
  { id := "sensor-pipe-A", sensor_id := "sensor-pipe-A", name := "PIPE A",
    location_description := "Top-left corner", floor_reference := "Floor 1",
    x_coordinate := 50, y_coordinate := 50, prediction := "Unknown", confidence := 0,
    timestamp := none, severity := "none" }

/-- The sensorStates map holding just the registered sensor. -/
def stRegistered : SensorStates :=
  fun k => if k = "sensor-pipe-A" then some sRegistered else none

/-- Witness for C6 on the registered sensor with an empty history. -/
theorem C6_failure_isolation_witness :
    ((streamTick stRegistered [] "sensor-pipe-A" (.fail "network") 7).1 "sensor-pipe-A").map
        (fun e => e.prediction) = some "Error" ∧
    ("Error" : String) ≠ "Normal" ∧
    ("Error" : String) ≠ "Leak" ∧
    (streamTick stRegistered [] "sensor-pipe-A" (.fail "network") 7).2 = [] ∧
    (∀ rec : Record,
      (streamTick (streamTick stRegistered [] "sensor-pipe-A" (.fail "network") 7).1
          (streamTick stRegistered [] "sensor-pipe-A" (.fail "network") 7).2
          "sensor-pipe-A" (.ok rec) 8).2
        = [] ++ [rec]) :=
  C6_failure_isolation stRegistered [] "sensor-pipe-A" "network" 7 8 sRegistered rfl
